import Mathlib

/-!
Verification development for the ministark GPU polynomial engine.

The Rust sources embedded here are:
* src/fast-poly/src/stage.rs — the five GPU compute stages (FftGpuStage,
  ScaleAndNormalizeGpuStage, BitReverseGpuStage, MulPowStage, AddAssignStage);
* src/src/lib.rs — ProofOptions;
* src/src/utils.rs — synthetic_divide and horner_evaluate.

Modelling conventions:
* usize values are Nat (64-bit host, so usize to u64 conversions never fail);
  a Rust cast x as u32 computes x % 2^32;
* a panic (assert failure, unwrap failure, todo) makes the embedded function
  return none, or an error value when the claims distinguish panic kinds;
* the Metal library is a pair of predicates saying which kernel names resolve
  to a function (get_function succeeds) and which of those yield a compute
  pipeline (new_compute_pipeline_state_with_function succeeds);
* a stage's encode operation returns the list of commands it issues between
  new_compute_command_encoder and end_encoding; GPU buffers are named by Nat
  identifiers;
* the zero-sized PhantomData field of each stage struct is dropped, and the
  field type parameter F is kept only where the stage stores field values
  (the scale-factor buffer); F::field_name() becomes an explicit String
  argument and size_of for F an explicit Nat argument.
-/

/-- Rust's usize::is_power_of_two / u8::is_power_of_two (count_ones() == 1),
expressed with the standard bit trick: nonzero, and n AND (n - 1) is zero. -/
def is_power_of_two (n : Nat) : Bool :=
  n ≠ 0 && n &&& (n - 1) == 0

/-- u32 modulus: a Rust cast x as u32 computes x % U32_MOD. -/
def U32_MOD : Nat := 4294967296

/-- Model of the metal library handle: which kernel names get_function can
resolve, and for which resolved functions the device accepts pipeline
creation. -/
structure MetalLibrary where
  hasFunction : String → Bool
  pipelineOk : String → Bool

/-- Library in which every kernel name resolves and every pipeline compiles;
used to instantiate theorems at concrete inputs. -/
def fullLibrary : MetalLibrary :=
  { hasFunction := fun _ => true, pipelineOk := fun _ => true }

/-- metal::MTLSize — a 3-dimensional extent (width, height, depth). -/
structure MTLSize where
  width : Nat
  height : Nat
  depth : Nat
deriving DecidableEq, Repr

/-- metal::MTLSize::new. -/
def MTLSize.new (width height depth : Nat) : MTLSize :=
  { width := width, height := height, depth := depth }

/-- Model of metal::ComputePipelineState: the kernel name it was compiled
from together with the function constants baked in at the given constant
indices, in the order they were set. -/
structure ComputePipelineState where
  kernelName : String
  constants : List (Nat × Nat)
deriving DecidableEq, Repr

/-- Variant from stage.rs. -/
inductive Variant where
  | Multiple
  | Single
deriving DecidableEq, Repr

/-- fft_kernel_name from stage.rs: GPU FFT kernel name as declared at the
bottom of fft.metal. -/
def fft_kernel_name (variant : Variant) (field_name : String) : String :=
  "fft_" ++ (match variant with
    | Variant.Multiple => "multiple"
    | Variant.Single => "single") ++ "_" ++ field_name

/-- Commands a compute command encoder can record between
new_compute_command_encoder and end_encoding. Buffers are Nat identifiers. -/
inductive Command where
  | setComputePipelineState (pipeline : ComputePipelineState)
  | setThreadgroupMemoryLength (index : Nat) (length : Nat)
  | setBuffer (index : Nat) (buffer : Nat) (offset : Nat)
  | setBytes (index : Nat) (size : Nat) (value : Nat)
  | dispatchThreads (grid : MTLSize) (threadgroup : MTLSize)
  | memoryBarrierWithResources (buffers : List Nat)
  | endEncoding
deriving DecidableEq, Repr

/-- Test for a compute dispatch command. -/
def Command.isDispatch : Command → Bool
  | Command.dispatchThreads _ _ => true
  | _ => false

/-- Test for a memory barrier command. -/
def Command.isBarrier : Command → Bool
  | Command.memoryBarrierWithResources _ => true
  | _ => false

/-- Test for a threadgroup memory reservation command. -/
def Command.isSetThreadgroupMemoryLength : Command → Bool
  | Command.setThreadgroupMemoryLength _ _ => true
  | _ => false

/-- Holds when a command list consists of a prefix free of dispatches and
barriers, then exactly one dispatch, immediately one memory barrier naming
exactly the buffer dst, and then only the closing of the encoder. -/
def appendsOneDispatchThenBarrier (dst : Nat) (cmds : List Command) : Prop :=
  ∃ pre grid threadgroup,
    (∀ c ∈ pre, c.isDispatch = false ∧ c.isBarrier = false) ∧
    cmds = pre ++
      [Command.dispatchThreads grid threadgroup,
       Command.memoryBarrierWithResources [dst],
       Command.endEncoding]

/-- FftGpuStage from stage.rs (PhantomData dropped). -/
structure FftGpuStage where
  pipeline : ComputePipelineState
  threadgroup_dim : MTLSize
  grid_dim : MTLSize
deriving DecidableEq, Repr

/-- FftGpuStage::new. The asserts come first; on the GPU side the u32 casts
of n and num_boxes are baked in as function constants 0 and 1; get_function
and pipeline creation each panic (unwrap) on failure; the grid width is
n as u32 divided by 2. -/
def FftGpuStage.new (library : MetalLibrary) (field_name : String)
    (n num_boxes : Nat) (variant : Variant) : Option FftGpuStage :=
  if is_power_of_two n = true ∧ is_power_of_two num_boxes = true ∧
      num_boxes < n ∧ 2048 ≤ n ∧ n ≤ 1073741824 then
    if library.hasFunction (fft_kernel_name variant field_name) = true then
      if library.pipelineOk (fft_kernel_name variant field_name) = true then
        some
          { pipeline :=
              { kernelName := fft_kernel_name variant field_name
                constants := [(0, n % U32_MOD), (1, num_boxes % U32_MOD)] }
            threadgroup_dim := MTLSize.new 1024 1 1
            grid_dim := MTLSize.new (n % U32_MOD / 2) 1 1 }
      else none
    else none
  else none

/-- FftGpuStage::encode: sizeof_F models std::mem::size_of::<F>(). -/
def FftGpuStage.encode (s : FftGpuStage) (sizeof_F : Nat)
    (input_buffer twiddles_buffer : Nat) : List Command :=
  [Command.setComputePipelineState s.pipeline,
   Command.setThreadgroupMemoryLength 0 (2048 * sizeof_F),
   Command.setBuffer 0 input_buffer 0,
   Command.setBuffer 1 twiddles_buffer 0,
   Command.dispatchThreads s.grid_dim s.threadgroup_dim,
   Command.memoryBarrierWithResources [input_buffer],
   Command.endEncoding]

/-- Model of ark_poly's Radix2EvaluationDomain::distribute_powers serial
loop: element i is multiplied by g^i, tracked by a running power. -/
def distribute_powers_go {F : Type} [Monoid F] (g pow : F) : List F → List F
  | [] => []
  | x :: xs => (x * pow) :: distribute_powers_go g (pow * g) xs

/-- Model of ark_poly's Radix2EvaluationDomain::distribute_powers. -/
def distribute_powers {F : Type} [Monoid F] (coeffs : List F) (g : F) : List F :=
  distribute_powers_go g 1 coeffs

/-- ScaleAndNormalizeGpuStage from stage.rs. The device-private buffer
written by copy_to_private_buffer is modelled by its identifier
scale_factors_buffer (the fresh identifier supplied by the command queue)
together with its staged contents scale_factors. -/
structure ScaleAndNormalizeGpuStage (F : Type) where
  pipeline : ComputePipelineState
  threadgroup_dim : MTLSize
  grid_dim : MTLSize
  scale_factors_buffer : Nat
  scale_factors : List F
deriving DecidableEq

/-- ScaleAndNormalizeGpuStage::new: pipeline lookup for mul_assign_<field>
with no function constants, then the scale-factor buffer is filled with
norm_factor and, when scale_factor is not one, overwritten by
distribute_powers; command_queue is the identifier of the device buffer the
factors are copied into. -/
def ScaleAndNormalizeGpuStage.new {F : Type} [Monoid F] [DecidableEq F]
    (library : MetalLibrary) (command_queue : Nat) (field_name : String)
    (n : Nat) (scale_factor norm_factor : F) :
    Option (ScaleAndNormalizeGpuStage F) :=
  if library.hasFunction ("mul_assign_" ++ field_name) = true then
    if library.pipelineOk ("mul_assign_" ++ field_name) = true then
      some
        { pipeline := { kernelName := "mul_assign_" ++ field_name, constants := [] }
          threadgroup_dim := MTLSize.new 1024 1 1
          grid_dim := MTLSize.new n 1 1
          scale_factors_buffer := command_queue
          scale_factors :=
            if scale_factor = 1 then List.replicate n norm_factor
            else distribute_powers (List.replicate n norm_factor) scale_factor }
    else none
  else none

/-- ScaleAndNormalizeGpuStage::encode. -/
def ScaleAndNormalizeGpuStage.encode {F : Type}
    (s : ScaleAndNormalizeGpuStage F) (input_buffer : Nat) : List Command :=
  [Command.setComputePipelineState s.pipeline,
   Command.setBuffer 0 input_buffer 0,
   Command.setBuffer 1 s.scale_factors_buffer 0,
   Command.dispatchThreads s.grid_dim s.threadgroup_dim,
   Command.memoryBarrierWithResources [input_buffer],
   Command.endEncoding]

/-- BitReverseGpuStage from stage.rs (PhantomData dropped). -/
structure BitReverseGpuStage where
  pipeline : ComputePipelineState
  threadgroup_dim : MTLSize
  grid_dim : MTLSize
deriving DecidableEq, Repr

/-- BitReverseGpuStage::new: asserts, then function constants n as u32 at
index 0 and the literal 5 at index 1, then lookup of bit_reverse_<field>. -/
def BitReverseGpuStage.new (library : MetalLibrary) (field_name : String)
    (n : Nat) : Option BitReverseGpuStage :=
  if is_power_of_two n = true ∧ 2048 ≤ n ∧ n ≤ 1073741824 then
    if library.hasFunction ("bit_reverse_" ++ field_name) = true then
      if library.pipelineOk ("bit_reverse_" ++ field_name) = true then
        some
          { pipeline :=
              { kernelName := "bit_reverse_" ++ field_name
                constants := [(0, n % U32_MOD), (1, 5)] }
            threadgroup_dim := MTLSize.new 1024 1 1
            grid_dim := MTLSize.new (n % U32_MOD) 1 1 }
      else none
    else none
  else none

/-- BitReverseGpuStage::encode. -/
def BitReverseGpuStage.encode (s : BitReverseGpuStage)
    (input_buffer : Nat) : List Command :=
  [Command.setComputePipelineState s.pipeline,
   Command.setBuffer 0 input_buffer 0,
   Command.dispatchThreads s.grid_dim s.threadgroup_dim,
   Command.memoryBarrierWithResources [input_buffer],
   Command.endEncoding]

/-- MulPowStage from stage.rs (PhantomData dropped); shift is stored as u32. -/
structure MulPowStage where
  shift : Nat
  pipeline : ComputePipelineState
  threadgroup_dim : MTLSize
  grid_dim : MTLSize
deriving DecidableEq, Repr

/-- MulPowStage::new: no asserts; n as u32 is baked in as function constant
0, the kernel is mul_pow_<field>, and shift as u32 is stored on the stage. -/
def MulPowStage.new (library : MetalLibrary) (field_name : String)
    (n shift : Nat) : Option MulPowStage :=
  if library.hasFunction ("mul_pow_" ++ field_name) = true then
    if library.pipelineOk ("mul_pow_" ++ field_name) = true then
      some
        { shift := shift % U32_MOD
          pipeline :=
            { kernelName := "mul_pow_" ++ field_name
              constants := [(0, n % U32_MOD)] }
          threadgroup_dim := MTLSize.new 1024 1 1
          grid_dim := MTLSize.new (n % U32_MOD) 1 1 }
    else none
  else none

/-- MulPowStage::encode: power as u32 is bound as 4 inline bytes at index 2
and the stored shift at index 3. -/
def MulPowStage.encode (s : MulPowStage) (dst_buffer src_buffer : Nat)
    (power : Nat) : List Command :=
  [Command.setComputePipelineState s.pipeline,
   Command.setBuffer 0 dst_buffer 0,
   Command.setBuffer 1 src_buffer 0,
   Command.setBytes 2 4 (power % U32_MOD),
   Command.setBytes 3 4 s.shift,
   Command.dispatchThreads s.grid_dim s.threadgroup_dim,
   Command.memoryBarrierWithResources [dst_buffer],
   Command.endEncoding]

/-- AddAssignStage from stage.rs (PhantomData dropped). -/
structure AddAssignStage where
  pipeline : ComputePipelineState
  threadgroup_dim : MTLSize
  grid_dim : MTLSize
deriving DecidableEq, Repr

/-- AddAssignStage::new: no asserts; kernel add_assign_<field> with no
function constants; grid width is n as u32. -/
def AddAssignStage.new (library : MetalLibrary) (field_name : String)
    (n : Nat) : Option AddAssignStage :=
  if library.hasFunction ("add_assign_" ++ field_name) = true then
    if library.pipelineOk ("add_assign_" ++ field_name) = true then
      some
        { pipeline := { kernelName := "add_assign_" ++ field_name, constants := [] }
          threadgroup_dim := MTLSize.new 1024 1 1
          grid_dim := MTLSize.new (n % U32_MOD) 1 1 }
    else none
  else none

/-- AddAssignStage::encode. -/
def AddAssignStage.encode (s : AddAssignStage) (dst_buffer src_buffer : Nat) :
    List Command :=
  [Command.setComputePipelineState s.pipeline,
   Command.setBuffer 0 dst_buffer 0,
   Command.setBuffer 1 src_buffer 0,
   Command.dispatchThreads s.grid_dim s.threadgroup_dim,
   Command.memoryBarrierWithResources [dst_buffer],
   Command.endEncoding]

/-- ProofOptions from src/src/lib.rs (all fields are u8 in the source). -/
structure ProofOptions where
  num_queries : Nat
  lde_blowup_factor : Nat
  grinding_factor : Nat
  fri_folding_factor : Nat
  fri_max_remainder_size : Nat
deriving DecidableEq, Repr

def ProofOptions.MIN_NUM_QUERIES : Nat := 1

def ProofOptions.MAX_NUM_QUERIES : Nat := 128

def ProofOptions.MIN_BLOWUP_FACTOR : Nat := 1

def ProofOptions.MAX_BLOWUP_FACTOR : Nat := 64

def ProofOptions.MAX_GRINDING_FACTOR : Nat := 32

/-- ProofOptions::new: the five asserts, then the struct is built from the
arguments unchanged; an assert failure is a panic, modelled as none. -/
def ProofOptions.new (num_queries lde_blowup_factor grinding_factor
    fri_folding_factor fri_max_remainder_size : Nat) : Option ProofOptions :=
  if ProofOptions.MIN_NUM_QUERIES ≤ num_queries ∧
      num_queries ≤ ProofOptions.MAX_NUM_QUERIES ∧
      is_power_of_two lde_blowup_factor = true ∧
      ProofOptions.MIN_BLOWUP_FACTOR ≤ lde_blowup_factor ∧
      lde_blowup_factor ≤ ProofOptions.MAX_BLOWUP_FACTOR ∧
      grinding_factor ≤ ProofOptions.MAX_GRINDING_FACTOR then
    some
      { num_queries := num_queries
        lde_blowup_factor := lde_blowup_factor
        grinding_factor := grinding_factor
        fri_folding_factor := fri_folding_factor
        fri_max_remainder_size := fri_max_remainder_size }
  else none

/-- Panic kinds distinguished for synthetic_divide: an assert! failure
versus the todo! in the unimplemented branch. -/
inductive PanicKind where
  | assertFailed
  | todoUnimplemented
deriving DecidableEq, Repr

/-- Loop body of synthetic_divide for a = 1, iterating over the coefficients
from highest to lowest: the input list here is the reversed coefficient
list, c is the carry, and each cell receives the previous carry while the
carry becomes cell + b * carry (the add-then-swap of the source). -/
def synthetic_divide_go {F : Type} [CommRing F] (b c : F) : List F → List F
  | [] => []
  | x :: xs => c :: synthetic_divide_go b (x + b * c) xs

/-- In-place result of the a = 1 loop of synthetic_divide on the whole
coefficient slice (lowest coefficient first, as in the source). -/
def synthetic_divide_loop {F : Type} [CommRing F] (b : F) (coeffs : List F) :
    List F :=
  (synthetic_divide_go b 0 coeffs.reverse).reverse

/-- synthetic_divide from src/src/utils.rs: divides p by (x^a - b) in place,
discarding the remainder; the three asserts panic (assertFailed), and every
a other than 1 that passes the asserts reaches todo! (todoUnimplemented). -/
def synthetic_divide {F : Type} [CommRing F] [DecidableEq F]
    (coeffs : List F) (a : Nat) (b : F) : Except PanicKind (List F) :=
  if a = 0 then Except.error PanicKind.assertFailed
  else if b = 0 then Except.error PanicKind.assertFailed
  else if ¬ a < coeffs.length then Except.error PanicKind.assertFailed
  else if a = 1 then Except.ok (synthetic_divide_loop b coeffs)
  else Except.error PanicKind.todoUnimplemented

/-- horner_evaluate from src/src/utils.rs: rfold with
result * point + coeff. -/
def horner_evaluate {F : Type} [CommRing F] (poly_coeffs : List F)
    (point : F) : F :=
  poly_coeffs.foldr (fun coeff result => result * point + coeff) 0

/-- Final carry of the synthetic_divide loop over the reversed coefficient
list, updated exactly as the loop updates c; this is what the source
discards as the remainder. -/
def synthetic_divide_carry {F : Type} [CommRing F] (b c : F) :
    List F → F
  | [] => c
  | x :: xs => synthetic_divide_carry b (x + b * c) xs

/-- Concrete FftGpuStage value produced at n = 2048, num_boxes = 1,
Multiple variant, field name fp; used to instantiate theorems. -/
def fftStageAt2048 : FftGpuStage :=
  { pipeline := { kernelName := "fft_multiple_fp", constants := [(0, 2048), (1, 1)] }
    threadgroup_dim := MTLSize.new 1024 1 1
    grid_dim := MTLSize.new 1024 1 1 }

/-- Concrete BitReverseGpuStage value produced at n = 2048, field name fp. -/
def bitReverseStageAt2048 : BitReverseGpuStage :=
  { pipeline := { kernelName := "bit_reverse_fp", constants := [(0, 2048), (1, 5)] }
    threadgroup_dim := MTLSize.new 1024 1 1
    grid_dim := MTLSize.new 2048 1 1 }

/-- Concrete MulPowStage value produced at n = 8, shift = 2^32 + 7, field
name fp. -/
def mulPowStageAt8 : MulPowStage :=
  { shift := 7
    pipeline := { kernelName := "mul_pow_fp", constants := [(0, 8)] }
    threadgroup_dim := MTLSize.new 1024 1 1
    grid_dim := MTLSize.new 8 1 1 }

/-- Concrete AddAssignStage value produced at n = 8, field name fp. -/
def addAssignStageAt8 : AddAssignStage :=
  { pipeline := { kernelName := "add_assign_fp", constants := [] }
    threadgroup_dim := MTLSize.new 1024 1 1
    grid_dim := MTLSize.new 8 1 1 }

/-- Concrete ScaleAndNormalizeGpuStage over Int produced at n = 4,
scale_factor = 2, norm_factor = 3, buffer identifier 9, field name fp. -/
def scaleStageAt4 : ScaleAndNormalizeGpuStage Int :=
  { pipeline := { kernelName := "mul_assign_fp", constants := [] }
    threadgroup_dim := MTLSize.new 1024 1 1
    grid_dim := MTLSize.new 4 1 1
    scale_factors_buffer := 9
    scale_factors := [3, 6, 12, 24] }

theorem two_pow_and_pred (k : Nat) : 2 ^ k &&& (2 ^ k - 1) = 0 := by
  have h := Nat.and_pow_two_sub_one_eq_mod (2 ^ k) k
  rw [Nat.mod_self] at h
  exact h

theorem exists_pow_of_and_pred : ∀ n : Nat, n ≠ 0 → n &&& (n - 1) = 0 → ∃ k, n = 2 ^ k := by
  intro n
  induction n using Nat.strong_induction_on with
  | _ n ih =>
    intro h0 h
    have hdiv : n / 2 &&& (n - 1) / 2 = 0 := by
      have h2 := @Nat.and_div_two n (n - 1)
      rw [h] at h2
      simpa using h2.symm
    rcases Nat.mod_two_eq_zero_or_one n with hp | hp
    · have hm1 : (n - 1) / 2 = n / 2 - 1 := by omega
      have hne : n / 2 ≠ 0 := by omega
      have hlt : n / 2 < n := by omega
      rw [hm1] at hdiv
      obtain ⟨k, hk⟩ := ih (n / 2) hlt hne hdiv
      refine ⟨k + 1, ?_⟩
      have h2n : n = n / 2 * 2 := by omega
      rw [h2n, hk, Nat.pow_succ]
    · have hm1 : (n - 1) / 2 = n / 2 := by omega
      rw [hm1, Nat.and_self] at hdiv
      have h1 : n = 1 := by omega
      exact ⟨0, by simp [h1]⟩

theorem is_power_of_two_iff (n : Nat) : is_power_of_two n = true ↔ ∃ k, n = 2 ^ k := by
  unfold is_power_of_two
  simp only [Bool.and_eq_true, decide_eq_true_eq, beq_iff_eq]
  constructor
  · rintro ⟨h0, h1⟩
    exact exists_pow_of_and_pred n h0 h1
  · rintro ⟨k, rfl⟩
    exact ⟨(Nat.two_pow_pos k).ne', two_pow_and_pred k⟩

/-- Claim C2: FftGpuStage::new aborts construction if and only if n is not a
power of two, or n is outside [2048, 1073741824], or num_boxes is not a power
of two, or num_boxes is not strictly less than n, or the named kernel variant
is absent from the module, or pipeline creation fails; otherwise construction
returns a stage. -/
theorem c2_fft_new_none_iff (library : MetalLibrary) (field_name : String)
    (n num_boxes : Nat) (variant : Variant) :
    FftGpuStage.new library field_name n num_boxes variant = none ↔
      (¬ ∃ k, n = 2 ^ k) ∨ ¬ (2048 ≤ n ∧ n ≤ 1073741824) ∨
      (¬ ∃ k, num_boxes = 2 ^ k) ∨ ¬ num_boxes < n ∨
      library.hasFunction (fft_kernel_name variant field_name) = false ∨
      library.pipelineOk (fft_kernel_name variant field_name) = false := by
  unfold FftGpuStage.new
  split_ifs with h1 h2 h3
  · constructor
    · intro hc
      exact hc.elim
    · obtain ⟨a1, a2, a3, a4, a5⟩ := h1
      rintro (hk | hr | hk2 | hlt | hf | hp)
      · exact hk ((is_power_of_two_iff n).mp a1)
      · exact hr ⟨a4, a5⟩
      · exact hk2 ((is_power_of_two_iff num_boxes).mp a2)
      · exact hlt a3
      · rw [h2] at hf
        cases hf
      · rw [h3] at hp
        cases hp
  · simp only [Bool.not_eq_true] at h3
    exact iff_of_true rfl (Or.inr (Or.inr (Or.inr (Or.inr (Or.inr h3)))))
  · simp only [Bool.not_eq_true] at h2
    exact iff_of_true rfl (Or.inr (Or.inr (Or.inr (Or.inr (Or.inl h2)))))
  · refine iff_of_true rfl ?_
    by_contra hd
    push_neg at hd
    obtain ⟨d1, d2, d3, d4, d5, d6⟩ := hd
    exact h1 ⟨(is_power_of_two_iff n).mpr d1, (is_power_of_two_iff num_boxes).mpr d3,
      d4, d2.1, d2.2⟩

/-- Claim C1 (counterexample): constructing MulPowStage with n = 1024
succeeds when the kernel resolves, so it is not true that every concrete
stage fails construction at n = 1024. -/
theorem c1_counterexample :
    (MulPowStage.new fullLibrary "fp" 1024 0).isSome = true := by decide

/-- Claim C1 (amended): FftGpuStage and BitReverseGpuStage fail construction
at n = 1024 and at n = 2^31; the other three stages perform no size
validation, and construct successfully at both sizes whenever their kernel
name resolves and pipeline creation succeeds. -/
theorem c1_stage_size_validation :
    (∀ (library : MetalLibrary) (field_name : String) (num_boxes : Nat) (variant : Variant),
      FftGpuStage.new library field_name 1024 num_boxes variant = none) ∧
    (∀ (library : MetalLibrary) (field_name : String) (num_boxes : Nat) (variant : Variant),
      FftGpuStage.new library field_name 2147483648 num_boxes variant = none) ∧
    (∀ (library : MetalLibrary) (field_name : String),
      BitReverseGpuStage.new library field_name 1024 = none) ∧
    (∀ (library : MetalLibrary) (field_name : String),
      BitReverseGpuStage.new library field_name 2147483648 = none) ∧
    (∀ (F : Type) [Monoid F] [DecidableEq F] (library : MetalLibrary)
        (command_queue : Nat) (field_name : String) (scale_factor norm_factor : F),
      library.hasFunction ("mul_assign_" ++ field_name) = true →
      library.pipelineOk ("mul_assign_" ++ field_name) = true →
      (ScaleAndNormalizeGpuStage.new library command_queue field_name 1024
        scale_factor norm_factor).isSome = true ∧
      (ScaleAndNormalizeGpuStage.new library command_queue field_name 2147483648
        scale_factor norm_factor).isSome = true) ∧
    (∀ (library : MetalLibrary) (field_name : String) (shift : Nat),
      library.hasFunction ("mul_pow_" ++ field_name) = true →
      library.pipelineOk ("mul_pow_" ++ field_name) = true →
      (MulPowStage.new library field_name 1024 shift).isSome = true ∧
      (MulPowStage.new library field_name 2147483648 shift).isSome = true) ∧
    (∀ (library : MetalLibrary) (field_name : String),
      library.hasFunction ("add_assign_" ++ field_name) = true →
      library.pipelineOk ("add_assign_" ++ field_name) = true →
      (AddAssignStage.new library field_name 1024).isSome = true ∧
      (AddAssignStage.new library field_name 2147483648).isSome = true) := by
  refine ⟨?_, ?_, ?_, ?_, ?_, ?_, ?_⟩
  · intro library field_name num_boxes variant
    unfold FftGpuStage.new
    rw [if_neg (by rintro ⟨-, -, -, h, -⟩; omega)]
  · intro library field_name num_boxes variant
    unfold FftGpuStage.new
    rw [if_neg (by rintro ⟨-, -, -, -, h⟩; omega)]
  · intro library field_name
    unfold BitReverseGpuStage.new
    rw [if_neg (by rintro ⟨-, h, -⟩; omega)]
  · intro library field_name
    unfold BitReverseGpuStage.new
    rw [if_neg (by rintro ⟨-, -, h⟩; omega)]
  · intro F _ _ library command_queue field_name scale_factor norm_factor hf hp
    constructor <;> (unfold ScaleAndNormalizeGpuStage.new; rw [if_pos hf, if_pos hp]; rfl)
  · intro library field_name shift hf hp
    constructor <;> (unfold MulPowStage.new; rw [if_pos hf, if_pos hp]; rfl)
  · intro library field_name hf hp
    constructor <;> (unfold AddAssignStage.new; rw [if_pos hf, if_pos hp]; rfl)

/-- Claim C1 (witness): the amended statement instantiated with the full
library, field name fp, and concrete parameters. -/
theorem c1_stage_size_validation_witness :
    (FftGpuStage.new fullLibrary "fp" 1024 1 Variant.Single = none) ∧
    (FftGpuStage.new fullLibrary "fp" 2147483648 1 Variant.Single = none) ∧
    (BitReverseGpuStage.new fullLibrary "fp" 1024 = none) ∧
    (BitReverseGpuStage.new fullLibrary "fp" 2147483648 = none) ∧
    ((ScaleAndNormalizeGpuStage.new fullLibrary 9 "fp" 1024 (2 : Int) 3).isSome = true ∧
      (ScaleAndNormalizeGpuStage.new fullLibrary 9 "fp" 2147483648 (2 : Int) 3).isSome = true) ∧
    ((MulPowStage.new fullLibrary "fp" 1024 0).isSome = true ∧
      (MulPowStage.new fullLibrary "fp" 2147483648 0).isSome = true) ∧
    ((AddAssignStage.new fullLibrary "fp" 1024).isSome = true ∧
      (AddAssignStage.new fullLibrary "fp" 2147483648).isSome = true) :=
  ⟨c1_stage_size_validation.1 fullLibrary "fp" 1 Variant.Single,
   c1_stage_size_validation.2.1 fullLibrary "fp" 1 Variant.Single,
   c1_stage_size_validation.2.2.1 fullLibrary "fp",
   c1_stage_size_validation.2.2.2.1 fullLibrary "fp",
   c1_stage_size_validation.2.2.2.2.1 Int fullLibrary 9 "fp" 2 3 (by decide) (by decide),
   c1_stage_size_validation.2.2.2.2.2.1 fullLibrary "fp" 0 (by decide) (by decide),
   c1_stage_size_validation.2.2.2.2.2.2 fullLibrary "fp" (by decide) (by decide)⟩

/-- Claim C3: every stage's encode appends a prefix of state-setting
commands with no dispatch and no barrier, then exactly one compute
dispatch, immediately followed by exactly one memory barrier naming the
buffer the dispatch mutates, and nothing else before the encoder closes. -/
theorem c3_encode_dispatch_barrier :
    (∀ (s : FftGpuStage) (sizeof_F input_buffer twiddles_buffer : Nat),
      appendsOneDispatchThenBarrier input_buffer
        (FftGpuStage.encode s sizeof_F input_buffer twiddles_buffer)) ∧
    (∀ (F : Type) (s : ScaleAndNormalizeGpuStage F) (input_buffer : Nat),
      appendsOneDispatchThenBarrier input_buffer
        (ScaleAndNormalizeGpuStage.encode s input_buffer)) ∧
    (∀ (s : BitReverseGpuStage) (input_buffer : Nat),
      appendsOneDispatchThenBarrier input_buffer
        (BitReverseGpuStage.encode s input_buffer)) ∧
    (∀ (s : MulPowStage) (dst_buffer src_buffer power : Nat),
      appendsOneDispatchThenBarrier dst_buffer
        (MulPowStage.encode s dst_buffer src_buffer power)) ∧
    (∀ (s : AddAssignStage) (dst_buffer src_buffer : Nat),
      appendsOneDispatchThenBarrier dst_buffer
        (AddAssignStage.encode s dst_buffer src_buffer)) := by
  refine ⟨?_, ?_, ?_, ?_, ?_⟩
  · intro s sizeof_F input_buffer twiddles_buffer
    refine ⟨[Command.setComputePipelineState s.pipeline,
             Command.setThreadgroupMemoryLength 0 (2048 * sizeof_F),
             Command.setBuffer 0 input_buffer 0,
             Command.setBuffer 1 twiddles_buffer 0],
            s.grid_dim, s.threadgroup_dim, ?_, rfl⟩
    intro c hc
    simp only [List.mem_cons, List.not_mem_nil, or_false] at hc
    rcases hc with rfl | rfl | rfl | rfl <;> exact ⟨rfl, rfl⟩
  · intro F s input_buffer
    refine ⟨[Command.setComputePipelineState s.pipeline,
             Command.setBuffer 0 input_buffer 0,
             Command.setBuffer 1 s.scale_factors_buffer 0],
            s.grid_dim, s.threadgroup_dim, ?_, rfl⟩
    intro c hc
    simp only [List.mem_cons, List.not_mem_nil, or_false] at hc
    rcases hc with rfl | rfl | rfl <;> exact ⟨rfl, rfl⟩
  · intro s input_buffer
    refine ⟨[Command.setComputePipelineState s.pipeline,
             Command.setBuffer 0 input_buffer 0],
            s.grid_dim, s.threadgroup_dim, ?_, rfl⟩
    intro c hc
    simp only [List.mem_cons, List.not_mem_nil, or_false] at hc
    rcases hc with rfl | rfl <;> exact ⟨rfl, rfl⟩
  · intro s dst_buffer src_buffer power
    refine ⟨[Command.setComputePipelineState s.pipeline,
             Command.setBuffer 0 dst_buffer 0,
             Command.setBuffer 1 src_buffer 0,
             Command.setBytes 2 4 (power % U32_MOD),
             Command.setBytes 3 4 s.shift],
            s.grid_dim, s.threadgroup_dim, ?_, rfl⟩
    intro c hc
    simp only [List.mem_cons, List.not_mem_nil, or_false] at hc
    rcases hc with rfl | rfl | rfl | rfl | rfl <;> exact ⟨rfl, rfl⟩
  · intro s dst_buffer src_buffer
    refine ⟨[Command.setComputePipelineState s.pipeline,
             Command.setBuffer 0 dst_buffer 0,
             Command.setBuffer 1 src_buffer 0],
            s.grid_dim, s.threadgroup_dim, ?_, rfl⟩
    intro c hc
    simp only [List.mem_cons, List.not_mem_nil, or_false] at hc
    rcases hc with rfl | rfl | rfl <;> exact ⟨rfl, rfl⟩

/-- Claim C4 (counterexample): AddAssignStage constructed with n = 2^32
succeeds and its grid width is 0, not n, because n is truncated to u32. -/
theorem c4_counterexample :
    (AddAssignStage.new fullLibrary "fp" 4294967296).map AddAssignStage.grid_dim =
      some (MTLSize.new 0 1 1) ∧
    MTLSize.new 0 1 1 ≠ MTLSize.new 4294967296 1 1 := by
  constructor
  · decide
  · decide

/-- Claim C4 (amended): every successfully constructed stage has threadgroup
dimension (1024, 1, 1); the grid dimension is (n / 2, 1, 1) for FftGpuStage
and (n, 1, 1) for BitReverseGpuStage and ScaleAndNormalizeGpuStage, while
for MulPowStage and AddAssignStage it is (n mod 2^32, 1, 1), which equals
(n, 1, 1) whenever n < 2^32. -/
theorem c4_dispatch_dims :
    (∀ (library : MetalLibrary) (field_name : String) (n num_boxes : Nat)
        (variant : Variant) (s : FftGpuStage),
      FftGpuStage.new library field_name n num_boxes variant = some s →
      s.threadgroup_dim = MTLSize.new 1024 1 1 ∧ s.grid_dim = MTLSize.new (n / 2) 1 1) ∧
    (∀ (F : Type) [Monoid F] [DecidableEq F] (library : MetalLibrary)
        (command_queue : Nat) (field_name : String) (n : Nat)
        (scale_factor norm_factor : F) (s : ScaleAndNormalizeGpuStage F),
      ScaleAndNormalizeGpuStage.new library command_queue field_name n
        scale_factor norm_factor = some s →
      s.threadgroup_dim = MTLSize.new 1024 1 1 ∧ s.grid_dim = MTLSize.new n 1 1) ∧
    (∀ (library : MetalLibrary) (field_name : String) (n : Nat) (s : BitReverseGpuStage),
      BitReverseGpuStage.new library field_name n = some s →
      s.threadgroup_dim = MTLSize.new 1024 1 1 ∧ s.grid_dim = MTLSize.new n 1 1) ∧
    (∀ (library : MetalLibrary) (field_name : String) (n shift : Nat) (s : MulPowStage),
      MulPowStage.new library field_name n shift = some s →
      s.threadgroup_dim = MTLSize.new 1024 1 1 ∧
      s.grid_dim = MTLSize.new (n % U32_MOD) 1 1) ∧
    (∀ (library : MetalLibrary) (field_name : String) (n : Nat) (s : AddAssignStage),
      AddAssignStage.new library field_name n = some s →
      s.threadgroup_dim = MTLSize.new 1024 1 1 ∧
      s.grid_dim = MTLSize.new (n % U32_MOD) 1 1) := by
  refine ⟨?_, ?_, ?_, ?_, ?_⟩
  · intro library field_name n num_boxes variant s h
    unfold FftGpuStage.new at h
    split_ifs at h with h1 h2 h3
    injection h with h
    subst h
    refine ⟨rfl, ?_⟩
    have hm : n % U32_MOD = n := Nat.mod_eq_of_lt (by unfold U32_MOD; omega)
    show MTLSize.new (n % U32_MOD / 2) 1 1 = MTLSize.new (n / 2) 1 1
    rw [hm]
  · intro F _ _ library command_queue field_name n scale_factor norm_factor s h
    unfold ScaleAndNormalizeGpuStage.new at h
    split_ifs at h with h1 h2 h3 <;>
      (injection h with h; subst h; exact ⟨rfl, rfl⟩)
  · intro library field_name n s h
    unfold BitReverseGpuStage.new at h
    split_ifs at h with h1 h2 h3
    injection h with h
    subst h
    refine ⟨rfl, ?_⟩
    have hm : n % U32_MOD = n := Nat.mod_eq_of_lt (by unfold U32_MOD; omega)
    show MTLSize.new (n % U32_MOD) 1 1 = MTLSize.new n 1 1
    rw [hm]
  · intro library field_name n shift s h
    unfold MulPowStage.new at h
    split_ifs at h with h1 h2
    injection h with h
    subst h
    exact ⟨rfl, rfl⟩
  · intro library field_name n s h
    unfold AddAssignStage.new at h
    split_ifs at h with h1 h2
    injection h with h
    subst h
    exact ⟨rfl, rfl⟩

/-- Claim C4 (witness): the amended statement instantiated for each stage at
concrete sizes with the full library. -/
theorem c4_dispatch_dims_witness :
    (FftGpuStage.new fullLibrary "fp" 2048 1 Variant.Multiple = some fftStageAt2048) ∧
    (fftStageAt2048.threadgroup_dim = MTLSize.new 1024 1 1 ∧
      fftStageAt2048.grid_dim = MTLSize.new (2048 / 2) 1 1) ∧
    (ScaleAndNormalizeGpuStage.new fullLibrary 9 "fp" 4 (2 : Int) 3 = some scaleStageAt4) ∧
    (scaleStageAt4.threadgroup_dim = MTLSize.new 1024 1 1 ∧
      scaleStageAt4.grid_dim = MTLSize.new 4 1 1) ∧
    (BitReverseGpuStage.new fullLibrary "fp" 2048 = some bitReverseStageAt2048) ∧
    (bitReverseStageAt2048.threadgroup_dim = MTLSize.new 1024 1 1 ∧
      bitReverseStageAt2048.grid_dim = MTLSize.new 2048 1 1) ∧
    (MulPowStage.new fullLibrary "fp" 8 4294967303 = some mulPowStageAt8) ∧
    (mulPowStageAt8.threadgroup_dim = MTLSize.new 1024 1 1 ∧
      mulPowStageAt8.grid_dim = MTLSize.new (8 % U32_MOD) 1 1) ∧
    (AddAssignStage.new fullLibrary "fp" 8 = some addAssignStageAt8) ∧
    (addAssignStageAt8.threadgroup_dim = MTLSize.new 1024 1 1 ∧
      addAssignStageAt8.grid_dim = MTLSize.new (8 % U32_MOD) 1 1) :=
  ⟨by decide,
   c4_dispatch_dims.1 fullLibrary "fp" 2048 1 Variant.Multiple fftStageAt2048 (by decide),
   by decide,
   c4_dispatch_dims.2.1 Int fullLibrary 9 "fp" 4 2 3 scaleStageAt4 (by decide),
   by decide,
   c4_dispatch_dims.2.2.1 fullLibrary "fp" 2048 bitReverseStageAt2048 (by decide),
   by decide,
   c4_dispatch_dims.2.2.2.1 fullLibrary "fp" 8 4294967303 mulPowStageAt8 (by decide),
   by decide,
   c4_dispatch_dims.2.2.2.2 fullLibrary "fp" 8 addAssignStageAt8 (by decide)⟩

theorem distribute_powers_go_length {F : Type} [Monoid F] (g : F) :
    ∀ (l : List F) (pow : F), (distribute_powers_go g pow l).length = l.length := by
  intro l
  induction l with
  | nil => intro pow; rfl
  | cons x xs ih =>
      intro pow
      simp only [distribute_powers_go, List.length_cons, ih]

theorem distribute_powers_go_getElem? {F : Type} [Monoid F] (g : F) :
    ∀ (l : List F) (pow : F) (i : Nat) (x : F), l[i]? = some x →
      (distribute_powers_go g pow l)[i]? = some (x * (pow * g ^ i)) := by
  intro l
  induction l with
  | nil =>
      intro pow i x h
      simp at h
  | cons e t ih =>
      intro pow i x h
      cases i with
      | zero =>
          simp only [List.getElem?_cons_zero, Option.some.injEq] at h
          subst h
          simp only [distribute_powers_go, List.getElem?_cons_zero, pow_zero,
            mul_one, Option.some.injEq]
      | succ j =>
          simp only [List.getElem?_cons_succ] at h
          have hr := ih (pow * g) j x h
          simp only [distribute_powers_go, List.getElem?_cons_succ]
          rw [hr, pow_succ', ← mul_assoc pow g (g ^ j)]

/-- Claim C5: the scale-factor sequence built by ScaleAndNormalizeGpuStage
construction has exactly n entries and entry i equals
norm_factor * scale_factor ^ i. -/
theorem c5_scale_factors {F : Type} [Monoid F] [DecidableEq F]
    (library : MetalLibrary) (command_queue : Nat) (field_name : String)
    (n : Nat) (scale_factor norm_factor : F) (s : ScaleAndNormalizeGpuStage F)
    (h : ScaleAndNormalizeGpuStage.new library command_queue field_name n
      scale_factor norm_factor = some s) :
    s.scale_factors.length = n ∧
    ∀ i, i < n → s.scale_factors[i]? = some (norm_factor * scale_factor ^ i) := by
  unfold ScaleAndNormalizeGpuStage.new at h
  split_ifs at h with h1 h2 h3
  · injection h with h
    subst h
    constructor
    · show (List.replicate n norm_factor).length = n
      simp
    · intro i hi
      show (List.replicate n norm_factor)[i]? = _
      rw [List.getElem?_replicate_of_lt hi, h3, one_pow, mul_one]
  · injection h with h
    subst h
    constructor
    · show (distribute_powers (List.replicate n norm_factor) scale_factor).length = n
      unfold distribute_powers
      rw [distribute_powers_go_length]
      simp
    · intro i hi
      show (distribute_powers (List.replicate n norm_factor) scale_factor)[i]? = _
      unfold distribute_powers
      have hrep : (List.replicate n norm_factor)[i]? = some norm_factor :=
        List.getElem?_replicate_of_lt hi
      have hgo := distribute_powers_go_getElem? scale_factor
        (List.replicate n norm_factor) 1 i norm_factor hrep
      rw [hgo, one_mul]

/-- Claim C5 (witness): at n = 4, scale_factor = 2, norm_factor = 3 over Int
the stage holds [3, 6, 12, 24] and entry 2 is 3 * 2 ^ 2. -/
theorem c5_scale_factors_witness :
    (ScaleAndNormalizeGpuStage.new fullLibrary 9 "fp" 4 (2 : Int) 3 = some scaleStageAt4) ∧
    scaleStageAt4.scale_factors.length = 4 ∧
    scaleStageAt4.scale_factors[2]? = some ((3 : Int) * 2 ^ 2) :=
  ⟨by decide,
   (c5_scale_factors fullLibrary 9 "fp" 4 2 3 scaleStageAt4 (by decide)).1,
   (c5_scale_factors fullLibrary 9 "fp" 4 2 3 scaleStageAt4 (by decide)).2 2 (by decide)⟩

/-- Claim C6: a successfully constructed BitReverseGpuStage bakes exactly the
two function constants (0, n) and (1, 5) into its pipeline, compiled from the
bit_reverse kernel of the requested field. -/
theorem c6_bit_reverse_constants (library : MetalLibrary) (field_name : String)
    (n : Nat) (s : BitReverseGpuStage)
    (h : BitReverseGpuStage.new library field_name n = some s) :
    s.pipeline.constants = [(0, n), (1, 5)] ∧
    s.pipeline.kernelName = "bit_reverse_" ++ field_name := by
  unfold BitReverseGpuStage.new at h
  split_ifs at h with h1 h2 h3
  injection h with h
  subst h
  obtain ⟨-, -, a3⟩ := h1
  have hm : n % U32_MOD = n := Nat.mod_eq_of_lt (by unfold U32_MOD; omega)
  constructor
  · show [(0, n % U32_MOD), (1, 5)] = [(0, n), (1, 5)]
    rw [hm]
  · rfl

/-- Claim C6 (witness): the constants of the stage built at n = 2048. -/
theorem c6_bit_reverse_constants_witness :
    (BitReverseGpuStage.new fullLibrary "fp" 2048 = some bitReverseStageAt2048) ∧
    (bitReverseStageAt2048.pipeline.constants = [(0, 2048), (1, 5)] ∧
      bitReverseStageAt2048.pipeline.kernelName = "bit_reverse_" ++ "fp") :=
  ⟨by decide,
   c6_bit_reverse_constants fullLibrary "fp" 2048 bitReverseStageAt2048 (by decide)⟩

/-- Claim C7: every call to FftGpuStage encode (whichever variant the stage
was built from) reserves exactly 2048 * sizeof_F bytes of threadgroup memory
at index 0, and no other threadgroup memory. -/
theorem c7_fft_threadgroup_memory (s : FftGpuStage)
    (sizeof_F input_buffer twiddles_buffer : Nat) :
    (FftGpuStage.encode s sizeof_F input_buffer twiddles_buffer).filter
        Command.isSetThreadgroupMemoryLength =
      [Command.setThreadgroupMemoryLength 0 (2048 * sizeof_F)] := by
  rfl

/-- Claim C8: over the u8 domain, ProofOptions::new succeeds if and only if
num_queries is in [1, 128], lde_blowup_factor is a power of two at most 64,
and grinding_factor is at most 32; on success the five arguments are stored
unchanged, and the last two arguments are never validated. -/
theorem c8_proof_options (nq b g ff fmr : Nat)
    (_h1 : nq ≤ 255) (_h2 : b ≤ 255) (_h3 : g ≤ 255) (_h4 : ff ≤ 255) (_h5 : fmr ≤ 255) :
    ((ProofOptions.new nq b g ff fmr).isSome = true ↔
      (1 ≤ nq ∧ nq ≤ 128 ∧ (∃ k, b = 2 ^ k) ∧ b ≤ 64 ∧ g ≤ 32)) ∧
    (∀ o, ProofOptions.new nq b g ff fmr = some o →
      o.num_queries = nq ∧ o.lde_blowup_factor = b ∧ o.grinding_factor = g ∧
      o.fri_folding_factor = ff ∧ o.fri_max_remainder_size = fmr) ∧
    (∀ ff2 fmr2, (ProofOptions.new nq b g ff2 fmr2).isSome =
      (ProofOptions.new nq b g ff fmr).isSome) := by
  refine ⟨⟨?_, ?_⟩, ?_, ?_⟩
  · intro hs
    unfold ProofOptions.new at hs
    split_ifs at hs with hc
    · obtain ⟨a1, a2, a3, a4, a5, a6⟩ := hc
      exact ⟨a1, a2, (is_power_of_two_iff b).mp a3, a5, a6⟩
    · simp at hs
  · rintro ⟨b1, b2, b3, b4, b5⟩
    have hpos : 1 ≤ b := by
      obtain ⟨k, hk⟩ := b3
      subst hk
      exact Nat.one_le_two_pow
    unfold ProofOptions.new
    rw [if_pos ⟨b1, b2, (is_power_of_two_iff b).mpr b3, hpos, b4, b5⟩]
    rfl
  · intro o h
    unfold ProofOptions.new at h
    split_ifs at h with hc
    injection h with h
    subst h
    exact ⟨rfl, rfl, rfl, rfl, rfl⟩
  · intro ff2 fmr2
    unfold ProofOptions.new
    split_ifs <;> rfl

/-- Claim C8 (witness): the statement instantiated at (10, 4, 16, 8, 64),
with the validity of (10, 4, 16) shown through the theorem and the last two
arguments varied to (99, 100) without affecting success. -/
theorem c8_proof_options_witness :
    (ProofOptions.new 10 4 16 8 64).isSome = true ∧
    (ProofOptions.new 10 4 16 99 100).isSome = (ProofOptions.new 10 4 16 8 64).isSome :=
  ⟨(c8_proof_options 10 4 16 8 64 (by decide) (by decide) (by decide) (by decide)
      (by decide)).1.mpr ⟨by decide, by decide, ⟨2, by decide⟩, by decide, by decide⟩,
   (c8_proof_options 10 4 16 8 64 (by decide) (by decide) (by decide) (by decide)
      (by decide)).2.2 99 100⟩

/-- Claim C9: a constructed MulPowStage stores shift reduced modulo 2^32, its
encode binds power reduced modulo 2^32 (4 inline bytes at buffer index 2) and
the reduced shift at index 3, always encoding the full command list with no
error; for any power of at least 2^32 the bound value differs from power. -/
theorem c9_mul_pow_truncation (library : MetalLibrary) (field_name : String)
    (n shift : Nat) (s : MulPowStage)
    (h : MulPowStage.new library field_name n shift = some s) :
    s.shift = shift % U32_MOD ∧
    (∀ dst_buffer src_buffer power,
      MulPowStage.encode s dst_buffer src_buffer power =
        [Command.setComputePipelineState s.pipeline,
         Command.setBuffer 0 dst_buffer 0,
         Command.setBuffer 1 src_buffer 0,
         Command.setBytes 2 4 (power % U32_MOD),
         Command.setBytes 3 4 (shift % U32_MOD),
         Command.dispatchThreads s.grid_dim s.threadgroup_dim,
         Command.memoryBarrierWithResources [dst_buffer],
         Command.endEncoding]) ∧
    (∀ power, U32_MOD ≤ power → power % U32_MOD ≠ power) := by
  unfold MulPowStage.new at h
  split_ifs at h with h1 h2
  injection h with h
  subst h
  refine ⟨rfl, fun dst_buffer src_buffer power => rfl, fun power hp => ?_⟩
  have hlt : power % U32_MOD < U32_MOD := Nat.mod_lt power (by decide)
  omega

/-- Claim C9 (witness): at shift = 2^32 + 7 the stage stores 7, and encoding
with power = 2^32 binds 0, which differs from the passed power. -/
theorem c9_mul_pow_truncation_witness :
    (MulPowStage.new fullLibrary "fp" 8 4294967303 = some mulPowStageAt8) ∧
    mulPowStageAt8.shift = 4294967303 % U32_MOD ∧
    MulPowStage.encode mulPowStageAt8 10 11 4294967296 =
      [Command.setComputePipelineState mulPowStageAt8.pipeline,
       Command.setBuffer 0 10 0,
       Command.setBuffer 1 11 0,
       Command.setBytes 2 4 (4294967296 % U32_MOD),
       Command.setBytes 3 4 (4294967303 % U32_MOD),
       Command.dispatchThreads mulPowStageAt8.grid_dim mulPowStageAt8.threadgroup_dim,
       Command.memoryBarrierWithResources [10],
       Command.endEncoding] ∧
    4294967296 % U32_MOD ≠ 4294967296 :=
  ⟨by decide,
   (c9_mul_pow_truncation fullLibrary "fp" 8 4294967303 mulPowStageAt8 (by decide)).1,
   (c9_mul_pow_truncation fullLibrary "fp" 8 4294967303 mulPowStageAt8
      (by decide)).2.1 10 11 4294967296,
   (c9_mul_pow_truncation fullLibrary "fp" 8 4294967303 mulPowStageAt8
      (by decide)).2.2 4294967296 (by decide)⟩

theorem synthetic_divide_go_length {F : Type} [CommRing F] (b : F) :
    ∀ (l : List F) (c : F), (synthetic_divide_go b c l).length = l.length := by
  intro l
  induction l with
  | nil => intro c; rfl
  | cons x xs ih =>
      intro c
      simp only [synthetic_divide_go, List.length_cons, ih]

theorem synthetic_divide_carry_eq_foldl {F : Type} [CommRing F] (b : F) :
    ∀ (l : List F) (c : F),
      synthetic_divide_carry b c l = List.foldl (fun a e => a * b + e) c l := by
  intro l
  induction l with
  | nil => intro c; rfl
  | cons e t ih =>
      intro c
      simp only [synthetic_divide_carry, List.foldl_cons]
      rw [ih (e + b * c)]
      congr 1
      ring

theorem synthetic_divide_go_horner {F : Type} [CommRing F] (b x : F) :
    ∀ (l : List F) (c acc : F),
      (x - b) * List.foldl (fun a e => a * x + e) acc (synthetic_divide_go b c l) +
          synthetic_divide_carry b c l =
        List.foldl (fun a e => a * x + e) ((x - b) * acc + c) l := by
  intro l
  induction l with
  | nil =>
      intro c acc
      simp only [synthetic_divide_go, synthetic_divide_carry, List.foldl_nil]
  | cons e t ih =>
      intro c acc
      simp only [synthetic_divide_go, synthetic_divide_carry, List.foldl_cons]
      rw [ih (e + b * c) (acc * x + c)]
      congr 1
      ring

theorem synthetic_divide_loop_spec {F : Type} [CommRing F] (b : F)
    (coeffs : List F) (x : F) :
    horner_evaluate coeffs x =
      (x - b) * horner_evaluate (synthetic_divide_loop b coeffs) x +
        horner_evaluate coeffs b := by
  have h := synthetic_divide_go_horner b x coeffs.reverse 0 0
  have e1 : (x - b) * (0 : F) + 0 = 0 := by ring
  rw [e1, synthetic_divide_carry_eq_foldl] at h
  have e2 : List.foldl (fun a e => a * x + e) (0 : F) coeffs.reverse =
      horner_evaluate coeffs x := by
    rw [List.foldl_reverse]
    rfl
  have e3 : List.foldl (fun a e => a * b + e) (0 : F) coeffs.reverse =
      horner_evaluate coeffs b := by
    rw [List.foldl_reverse]
    rfl
  have e4 : List.foldl (fun a e => a * x + e) (0 : F)
      (synthetic_divide_go b 0 coeffs.reverse) =
      horner_evaluate (synthetic_divide_loop b coeffs) x := by
    unfold synthetic_divide_loop horner_evaluate
    rw [List.foldr_reverse]
  rw [e2, e3, e4] at h
  exact h.symm

/-- Claim C10: when the asserted preconditions hold (b nonzero and
coeffs.len() > a, with a nonzero implied), synthetic_divide reaches the
unimplemented todo for every a of at least 2, while for a = 1 it returns the
in-place quotient of the coefficients by (x - b): the result keeps the
length, and evaluating it as a polynomial satisfies the synthetic division
identity p(x) = (x - b) * q(x) + p(b). -/
theorem c10_synthetic_divide {F : Type} [CommRing F] [DecidableEq F]
    (coeffs : List F) (a : Nat) (b : F) (hb : b ≠ 0) (hlen : a < coeffs.length) :
    (2 ≤ a → synthetic_divide coeffs a b = Except.error PanicKind.todoUnimplemented) ∧
    (a = 1 → synthetic_divide coeffs a b = Except.ok (synthetic_divide_loop b coeffs) ∧
      (synthetic_divide_loop b coeffs).length = coeffs.length ∧
      ∀ x, horner_evaluate coeffs x =
        (x - b) * horner_evaluate (synthetic_divide_loop b coeffs) x +
          horner_evaluate coeffs b) := by
  constructor
  · intro ha
    unfold synthetic_divide
    rw [if_neg (by omega), if_neg hb, if_neg (not_not_intro hlen), if_neg (by omega)]
  · intro ha
    refine ⟨?_, ?_, fun x => synthetic_divide_loop_spec b coeffs x⟩
    · unfold synthetic_divide
      rw [if_neg (by omega), if_neg hb, if_neg (not_not_intro hlen), if_pos ha]
    · unfold synthetic_divide_loop
      rw [List.length_reverse, synthetic_divide_go_length, List.length_reverse]

/-- Claim C10 (witness): over Int, dividing x^2 + 1 by (x - 2) gives
quotient x + 2 with remainder 5, checked at x = 3, while a = 2 on a longer
coefficient list reaches the todo even though all asserts pass. -/
theorem c10_synthetic_divide_witness :
    synthetic_divide ([1, 0, 1] : List Int) 1 2 =
      Except.ok (synthetic_divide_loop 2 [1, 0, 1]) ∧
    (synthetic_divide_loop (2 : Int) [1, 0, 1]).length = ([1, 0, 1] : List Int).length ∧
    horner_evaluate ([1, 0, 1] : List Int) 3 =
      (3 - 2) * horner_evaluate (synthetic_divide_loop 2 [1, 0, 1]) 3 +
        horner_evaluate [1, 0, 1] 2 ∧
    synthetic_divide ([1, 0, 1, 0] : List Int) 2 2 =
      Except.error PanicKind.todoUnimplemented :=
  ⟨((c10_synthetic_divide ([1, 0, 1] : List Int) 1 2 (by decide) (by decide)).2 rfl).1,
   ((c10_synthetic_divide ([1, 0, 1] : List Int) 1 2 (by decide) (by decide)).2 rfl).2.1,
   ((c10_synthetic_divide ([1, 0, 1] : List Int) 1 2 (by decide) (by decide)).2 rfl).2.2 3,
   (c10_synthetic_divide ([1, 0, 1, 0] : List Int) 2 2 (by decide) (by decide)).1 (by decide)⟩
